import Mathlib

/-!
Verification of the SOCKS5 proxy server (`shift-replace`): a shallow
embedding of the handshake state machine, wire codec, address resolver,
reply construction and tunnel of `server/server.go` and
`handlers/model.go`, with theorems settling the specified properties.

Byte streams are modelled as `List Nat` (each element one octet).  A
`net.Conn.Read` into a buffer of size `n` is modelled by `goRead`:
it blocks until at least one byte is available, returns up to `n`
bytes without waiting for the buffer to fill, reports `io.EOF` on a
closed/exhausted stream, and leaves unread buffer positions at their
zero value — exactly the Go contract the source relies on.  Writes to
the client are modelled as an output byte list (the client sink always
accepts them; no claim concerns client-side write failures).
-/

/- ### Constants (server/constanst.go, handlers/constants.go) -/

/-- SOCKS5H_VERSION - SOCKS5H Version. -/
def SOCKS5H_VERSION : Nat := 0x05

/-- RSV - Reserved byte. -/
def RSV : Nat := 0x00

/-- NO AUTHENTICATION REQUIRED method byte. -/
def NO_AUTHENTICATION_REQUIRED_method : Nat := 0x00

/-- GSSAPI method byte. -/
def GSSAPI_method : Nat := 0x01

/-- USERNAME/PASSWORD method byte. -/
def USERNAME_PASSWORD_method : Nat := 0x02

/-- NO ACCEPTABLE METHODS method byte. -/
def NO_ACCEPTABLE_METHODS_method : Nat := 0xFF

/-- CONNECT command byte. -/
def CONNECT_cmd : Nat := 0x01

/-- BIND command byte. -/
def BIND_cmd : Nat := 0x02

/-- UDP ASSOCIATE command byte. -/
def UDP_ASSOCIATE_cmd : Nat := 0x03

/-- IP V4 address type byte. -/
def IP_V4_addr : Nat := 0x01

/-- DOMAINNAME address type byte. -/
def DOMAINNAME_addr : Nat := 0x03

/-- IP V6 address type byte. -/
def IP_V6_addr : Nat := 0x04

/-- Reply code X'00' succeeded. -/
def SUCCEEDED_connReply : Nat := 0x00

/-- Reply code X'01' general SOCKS server failure. -/
def GENERAL_SOCKS_SERVER_FAILURE_connReply : Nat := 0x01

/-- Reply code X'08' address type not supported. -/
def ADDRESS_TYPE_NOT_SUPPORTED_connReply : Nat := 0x08

/- ### Error taxonomy

Each constructor mirrors one concrete `errors.New`/`io.EOF` site of the
Go source; the original message is recorded in the doc comment. -/

/-- The terminal error values the Go handshake code can return. -/
inductive GoErr
  /-- an I/O read error (`io.EOF` on an exhausted stream). -/
  | eof
  /-- "ver to aytp in socks5h request isn't of length 4". -/
  | shortHeader
  /-- "unable to ipv4". -/
  | shortIPv4
  /-- "unable to ipv4 port". -/
  | shortIPv4Port
  /-- "unable to read domain name length". -/
  | shortDomainLen
  /-- "unable to domain name". -/
  | shortDomain
  /-- "unable to domain name port". -/
  | shortDomainPort
  /-- "unable to ipv6". -/
  | shortIPv6
  /-- "unable to ipv6 port". -/
  | shortIPv6Port
  /-- "invalid version or rsv". -/
  | badVersionOrRsv
  /-- "request cmd type is invalid". -/
  | badCmd
  /-- "invalid atyp provided". -/
  | badAtyp
  /-- a `net.Dial` failure surfaced as a non-nil error. -/
  | dialFailed
  /-- "could not create remote connection". -/
  | nilRemote
deriving DecidableEq

/-- Classification of an error as a ProtocolError in the spec's error
taxonomy (well-formed transport, invalid field values). -/
def GoErr.isProtocol : GoErr → Bool
  | .badVersionOrRsv => true
  | .badCmd => true
  | .badAtyp => true
  | _ => false

/-- Runtime faults (Go panics) the handler code can hit. -/
inductive CPanic
  /-- nil-pointer dereference: `remote.LocalAddr()` with `remote == nil`. -/
  | nilDeref
  /-- `binary.BigEndian.Uint16` on a slice shorter than 2 bytes. -/
  | shortSlice
deriving DecidableEq

/- ### Stream reads -/

/-- `conn.Read` into a buffer of `n` bytes against the remaining stream
`s`: returns the resulting buffer contents (unfilled positions keep
their zero value), the reported read length and the rest of the stream.
A read of `n = 0` bytes returns immediately; a positive read on an
exhausted stream reports `io.EOF`; otherwise up to `n` bytes are
returned without waiting for the buffer to fill. -/
def goRead (n : Nat) (s : List Nat) : Except GoErr (List Nat × Nat × List Nat) :=
  if n = 0 then .ok ([], 0, s)
  else
    match s with
    | [] => .error .eof
    | _ => .ok (s.take n ++ List.replicate (n - s.length) 0, min n s.length, s.drop n)

/- ### Data model (handlers/model.go)

The Go struct has two unexported cache fields `addr`/`port`; every
method of `Socks5_Req` uses a value receiver, so assignments to those
caches never escape a call and the caches are observably always at
their zero value.  They are therefore omitted from the embedding. -/

/-- A parsed SOCKS5 connection request. -/
structure Socks5_Req where
  Version : Nat
  Cmd : Nat
  AType : Nat
  DstAddr : List Nat
  DstPort : List Nat
deriving DecidableEq

/-- `Socks5_Req.AddrStr`: the destination address bytes viewed as a Go
string (raw bytes, no re-encoding). -/
def Socks5_Req.AddrStr (r : Socks5_Req) : List Nat := r.DstAddr

/-- `Socks5_Req.PortNum`: `binary.BigEndian.Uint16(s.DstPort)`; Go
panics when the slice holds fewer than 2 bytes, modelled by `none`. -/
def Socks5_Req.PortNum? (r : Socks5_Req) : Option Nat :=
  if 2 ≤ r.DstPort.length then
    some (r.DstPort.getD 0 0 * 256 + r.DstPort.getD 1 0)
  else none

/-- Fuel-driven decimal printer: the digits of `n` in ASCII. -/
def decDigitsAux : Nat → Nat → List Nat
  | 0, _ => []
  | f + 1, n => if n < 10 then [48 + n] else decDigitsAux f (n / 10) ++ [48 + n % 10]

/-- ASCII decimal representation of `n` (as produced by `%d`). -/
def decDigits (n : Nat) : List Nat := decDigitsAux (n + 1) n

/-- `Socks5_Req.FullAddr`: `fmt.Sprintf` of `AddrStr`, a colon and the
decimal port; `none` when `PortNum` would panic. -/
def Socks5_Req.FullAddr? (r : Socks5_Req) : Option (List Nat) :=
  match r.PortNum? with
  | some p => some (r.AddrStr ++ 58 :: decDigits p)
  | none => none

/-- The SOCKS5 connection reply under construction.  `addr`/`port` are
the unexported cache slices of the Go struct (zero value `nil`). -/
structure Socks5_Res where
  Reply : Nat := 0
  AType : Nat := 0
  BindAddr : List Nat := []
  BindPort : Nat := 0
  addr : List Nat := []
  port : List Nat := []
deriving DecidableEq

/-- `Socks5_Res.AddrBytes`: the cached slice when non-empty, otherwise
the raw bytes of the `BindAddr` *string* (`[]byte(s.BindAddr)`). -/
def Socks5_Res.AddrBytes (s : Socks5_Res) : List Nat :=
  if 0 < s.addr.length then s.addr else s.BindAddr

/-- `Socks5_Res.PortBytes`: the cached slice when non-empty, otherwise
`binary.BigEndian.PutUint16` of `uint16(s.BindPort)`. -/
def Socks5_Res.PortBytes (s : Socks5_Res) : List Nat :=
  if 0 < s.port.length then s.port
  else [s.BindPort % 65536 / 256, s.BindPort % 256]

/- ### Address readers (server/server.go) -/

/-- `readIPV4Addr`: 4 address bytes then 2 port bytes, each read
length-checked against the exact count. -/
def readIPV4Addr (s : List Nat) : Except GoErr (List Nat × List Nat × List Nat) :=
  match goRead 4 s with
  | .error e => .error e
  | .ok (ipv4, rl, s1) =>
    if rl ≠ 4 then .error .shortIPv4
    else
      match goRead 2 s1 with
      | .error e => .error e
      | .ok (port, rl2, s2) =>
        if rl2 ≠ 2 then .error .shortIPv4Port
        else .ok (ipv4, port, s2)

/-- `readDomainNameAddr`: 1 length byte, that many name bytes, then 2
port bytes, each read length-checked. -/
def readDomainNameAddr (s : List Nat) : Except GoErr (List Nat × List Nat × List Nat) :=
  match goRead 1 s with
  | .error e => .error e
  | .ok (lenbuf, rl, s1) =>
    if rl ≠ 1 then .error .shortDomainLen
    else
      match goRead (lenbuf.getD 0 0) s1 with
      | .error e => .error e
      | .ok (domainName, rl2, s2) =>
        if rl2 ≠ lenbuf.getD 0 0 then .error .shortDomain
        else
          match goRead 2 s2 with
          | .error e => .error e
          | .ok (port, rl3, s3) =>
            if rl3 ≠ 2 then .error .shortDomainPort
            else .ok (domainName, port, s3)

/-- `readIPV6Addr`: 16 address bytes then 2 port bytes, each read
length-checked. -/
def readIPV6Addr (s : List Nat) : Except GoErr (List Nat × List Nat × List Nat) :=
  match goRead 16 s with
  | .error e => .error e
  | .ok (ipv6, rl, s1) =>
    if rl ≠ 16 then .error .shortIPv6
    else
      match goRead 2 s1 with
      | .error e => .error e
      | .ok (port, rl2, s2) =>
        if rl2 ≠ 2 then .error .shortIPv6Port
        else .ok (ipv6, port, s2)

/-- The `switch atyp` dispatch of `readSockRequest`. -/
def addrDispatch (atyp : Nat) (s : List Nat) :
    Except GoErr (List Nat × List Nat × List Nat) :=
  if atyp = IP_V4_addr then readIPV4Addr s
  else if atyp = DOMAINNAME_addr then readDomainNameAddr s
  else if atyp = IP_V6_addr then readIPV6Addr s
  else .error .badAtyp

/-- `readSockRequest` (server/server.go): 4-byte header, field checks,
then the address reader keyed on the address type. -/
def readSockRequest (s : List Nat) : Except GoErr (Socks5_Req × List Nat) :=
  match goRead 4 s with
  | .error e => .error e
  | .ok (header, hl, s1) =>
    if hl ≠ 4 then .error .shortHeader
    else
      let ver := header.getD 0 0
      let cmd := header.getD 1 0
      let rsv := header.getD 2 0
      let atyp := header.getD 3 0
      if ver ≠ SOCKS5H_VERSION ∨ rsv ≠ RSV then .error .badVersionOrRsv
      else if cmd < CONNECT_cmd ∨ UDP_ASSOCIATE_cmd < cmd then .error .badCmd
      else
        match addrDispatch atyp s1 with
        | .error e => .error e
        | .ok (addr, port, s2) =>
          .ok ({ Version := ver, Cmd := cmd, AType := atyp,
                 DstAddr := addr, DstPort := port }, s2)

/- ### Greeting (server/server.go, handleSOCKS5 lines 78-91) -/

/-- The greeting reader of `handleSOCKS5`: one method-count byte, then
an `n`-byte read into the methods buffer whose reported length the Go
code discards (only the error is checked). -/
def handleGreeting (s : List Nat) : Except GoErr (List Nat × List Nat) :=
  match goRead 1 s with
  | .error e => .error e
  | .ok (nbuf, _, s1) =>
    if 0 < nbuf.getD 0 0 then
      match goRead (nbuf.getD 0 0) s1 with
      | .error e => .error e
      | .ok (methods, _, s2) => .ok (methods, s2)
    else .ok ([], s1)

/-- `replyMethodSelection`: the two selection bytes written to the
client — default NO ACCEPTABLE METHODS, overwritten with NO AUTH when
`slices.Contains(methods, NO_AUTHENTICATION_REQUIRED_method)`. -/
def replyMethodSelectionBytes (methods : List Nat) : List Nat :=
  let reply := [SOCKS5H_VERSION, NO_ACCEPTABLE_METHODS_method]
  if methods.contains NO_AUTHENTICATION_REQUIRED_method then
    reply.set 1 NO_AUTHENTICATION_REQUIRED_method
  else reply

/- ### net.IP helpers (Go standard library behavior used by connectDst)

`net.Dial("tcp4", ...)` yields a `*net.TCPAddr` local address whose IP
is a byte slice; `connectDst` classifies it via `To4`/`To16` and formats
it via `IP.String()`.  These are modelled byte-for-byte after the Go
standard library functions on `net.IP`. -/

/-- The local endpoint of a dialed TCP connection (`*net.TCPAddr`). -/
structure TCPAddr where
  ip : List Nat
  port : Nat
deriving DecidableEq

/-- The IPv4-in-IPv6 prefix `::ffff:0:0/96`. -/
def v4InV6Prefix : List Nat := [0, 0, 0, 0, 0, 0, 0, 0, 0, 0, 255, 255]

/-- `net.IP.To4`: a 4-byte IP as is; a 16-byte IPv4-mapped address
reduced to its last 4 bytes; otherwise nil. -/
def ipTo4 (ip : List Nat) : Option (List Nat) :=
  if ip.length = 4 then some ip
  else if ip.length = 16 ∧ ip.take 12 = v4InV6Prefix then some (ip.drop 12)
  else none

/-- `net.IP.To16`: a 4-byte IP mapped into IPv6 form; a 16-byte IP as
is; otherwise nil. -/
def ipTo16 (ip : List Nat) : Option (List Nat) :=
  if ip.length = 4 then some (v4InV6Prefix ++ ip)
  else if ip.length = 16 then some ip
  else none

/-- One lowercase hexadecimal digit in ASCII. -/
def hexDigit (n : Nat) : Nat := if n < 10 then 48 + n else 87 + n

/-- Fuel-driven hexadecimal printer (no leading zeros). -/
def hexDigitsAux : Nat → Nat → List Nat
  | 0, _ => []
  | f + 1, n => if n < 16 then [hexDigit n] else hexDigitsAux f (n / 16) ++ [hexDigit (n % 16)]

/-- ASCII lowercase hexadecimal representation of `n`. -/
def hexDigits (n : Nat) : List Nat := hexDigitsAux (n + 1) n

/-- Two hex digits per byte, concatenated (Go's `hexString`). -/
def hexBytes (l : List Nat) : List Nat :=
  (l.map (fun b => [hexDigit (b / 16 % 16), hexDigit (b % 16)])).flatten

/-- Dotted decimal form of a 4-byte IPv4 address. -/
def dottedDecimal : List Nat → List Nat
  | [a, b, c, d] =>
    decDigits a ++ 46 :: decDigits b ++ 46 :: decDigits c ++ 46 :: decDigits d
  | _ => []

/-- The 8 big-endian 16-bit groups of a 16-byte IPv6 address. -/
def ip6Groups (ip : List Nat) : List Nat :=
  (List.range 8).map (fun i => ip.getD (2 * i) 0 * 256 + ip.getD (2 * i + 1) 0)

/-- Length of the run of zero groups at the head of the list. -/
def zeroRunLen : List Nat → Nat
  | 0 :: rest => 1 + zeroRunLen rest
  | _ => 0

/-- All maximal runs of zero groups, as (start index, length) pairs;
fuel-driven over the group list. -/
def zeroRunsAux : Nat → List Nat → Nat → List (Nat × Nat)
  | 0, _, _ => []
  | f + 1, gs, i =>
    match gs with
    | [] => []
    | 0 :: rest =>
      let l := 1 + zeroRunLen rest
      (i, l) :: zeroRunsAux f (rest.drop (zeroRunLen rest)) (i + l)
    | _ :: rest => zeroRunsAux f rest (i + 1)

/-- All maximal runs of zero groups of `gs`. -/
def zeroRuns (gs : List Nat) : List (Nat × Nat) := zeroRunsAux gs.length gs 0

/-- The earliest run of maximal length (a later run replaces an earlier
one only when strictly longer, as in Go's scan). -/
def pickBest : List (Nat × Nat) → Option (Nat × Nat)
  | [] => none
  | r :: rest =>
    match pickBest rest with
    | none => some r
    | some b => if r.2 < b.2 then some b else some r

/-- The zero run `net.IP.String` elides: the earliest longest run of at
least two zero groups. -/
def bestZeroRun (gs : List Nat) : Option (Nat × Nat) :=
  match pickBest (zeroRuns gs) with
  | some (st, l) => if 2 ≤ l then some (st, l) else none
  | none => none

/-- Interleave hex group texts with colons. -/
def joinColon : List (List Nat) → List Nat
  | [] => []
  | [x] => x
  | x :: rest => x ++ 58 :: joinColon rest

/-- RFC 5952 textual form of the 8 groups, with the best zero run
compressed to a double colon. -/
def ip6Format (gs : List Nat) : List Nat :=
  match bestZeroRun gs with
  | none => joinColon (gs.map hexDigits)
  | some (st, l) =>
    joinColon ((gs.take st).map hexDigits) ++ 58 :: 58 ::
      joinColon ((gs.drop (st + l)).map hexDigits)

/-- `net.IP.String`: empty slice prints as the nil marker, a `To4`
address in dotted decimal, a malformed length as a question mark plus
hex bytes, and a 16-byte address per RFC 5952. -/
def ipString (ip : List Nat) : List Nat :=
  if ip.length = 0 then [60, 110, 105, 108, 62]
  else
    match ipTo4 ip with
    | some p4 => dottedDecimal p4
    | none =>
      if ip.length ≠ 16 then 63 :: hexBytes ip
      else ip6Format (ip6Groups ip)

/- ### Dial step (server/server.go connectDst, prepareProxy) -/

/-- The `switch req.AType` of `connectDst`, up to but excluding the
`remote.LocalAddr()` line.  Returns the remote connection (if any), the
value of `res.Reply`, and whether `err` is non-nil.  The Go code sets
`res.Reply = SUCCEEDED_connReply` only when the dial error is nil, so
on a dial failure `res.Reply` keeps its zero value — which is the very
byte 0x00 = SUCCEEDED.  For any address type other than DOMAINNAME no
dial is attempted and the reply is ADDRESS_TYPE_NOT_SUPPORTED. -/
def connectDstSwitch (dial : List Nat → Option TCPAddr) (req : Socks5_Req) :
    Except CPanic (Option TCPAddr × Nat × Bool) :=
  if req.AType = DOMAINNAME_addr then
    match req.FullAddr? with
    | none => .error .shortSlice
    | some a =>
      match dial a with
      | some c => .ok (some c, SUCCEEDED_connReply, false)
      | none => .ok (none, SUCCEEDED_connReply, true)
  else .ok (none, ADDRESS_TYPE_NOT_SUPPORTED_connReply, false)

/-- `connectDst`: the switch, then the unconditional
`localAddr := remote.LocalAddr().(*net.TCPAddr)` — a nil-pointer
dereference whenever `remote` is nil (no dial attempted, or dial
failed) — then the `remote != nil` block that classifies the local IP
with `To4`/`To16` and fills the reply's bind address and port. -/
def connectDst (dial : List Nat → Option TCPAddr) (req : Socks5_Req) :
    Except CPanic (Option TCPAddr × Socks5_Res × Bool) :=
  match connectDstSwitch dial req with
  | .error p => .error p
  | .ok (remote, reply, dErr) =>
    match remote with
    | none => .error .nilDeref
    | some c =>
      let atype :=
        match ipTo4 c.ip with
        | some _ => IP_V4_addr
        | none =>
          match ipTo16 c.ip with
          | some _ => IP_V6_addr
          | none => DOMAINNAME_addr
      .ok (some c,
           { Reply := reply, AType := atype,
             BindAddr := ipString c.ip, BindPort := c.port }, dErr)

/-- `prepareProxy`: `connectDst` for CONNECT; BIND and UDP ASSOCIATE
return a nil connection, a zero reply and a nil error. -/
def prepareProxy (dial : List Nat → Option TCPAddr) (req : Socks5_Req) :
    Except CPanic (Option TCPAddr × Socks5_Res × Bool) :=
  if req.Cmd = CONNECT_cmd then connectDst dial req
  else .ok (none, {}, false)

/- ### Connection reply (server/server.go replyConnInfo) -/

/-- The bytes `replyConnInfo` writes: version, reply code, reserved,
address type, then `AddrBytes` and `PortBytes` of the reply. -/
def replyConnInfoBytes (res : Socks5_Res) : List Nat :=
  [SOCKS5H_VERSION, res.Reply, RSV, res.AType] ++ res.AddrBytes ++ res.PortBytes

/- ### Handler pipeline (server/server.go handleSOCKS5) -/

/-- Terminal outcome of `handleSOCKS5`: an ordinary error return, a
propagated runtime panic, or the formatted tunnel error. -/
inductive HErr
  | goErr (e : GoErr)
  | panicked (p : CPanic)
  | tunnelErr (rErr wErr : Option GoErr)
deriving DecidableEq

/-- The tail of `handleSOCKS5` after the method-selection reply has
been written: read the request, prepare the proxy connection, write the
connection reply and run the tunnel.  `written` is the bytes already
written to the client, `tnl` the terminal outcomes of the two tunnel
directions as reported by `tunnel`.  Returns all bytes written to the
client together with the handler's result. -/
def processRequest (dial : List Nat → Option TCPAddr)
    (tnl : Option GoErr × Option GoErr) (written : List Nat) (s : List Nat) :
    List Nat × Except HErr Unit :=
  match readSockRequest s with
  | .error e => (written, .error (.goErr e))
  | .ok (req, _) =>
    match prepareProxy dial req with
    | .error p => (written, .error (.panicked p))
    | .ok (remote, res, dErr) =>
      if dErr then (written, .error (.goErr .dialFailed))
      else
        match remote with
        | none => (written, .error (.goErr .nilRemote))
        | some _ =>
          let out := written ++ replyConnInfoBytes res
          if tnl.1 = none ∧ tnl.2 = none then (out, .ok ())
          else (out, .error (.tunnelErr tnl.1 tnl.2))

/-- `handleSOCKS5`: greeting, method-selection reply, then
`processRequest` on the remaining stream.  The stream starts after the
version byte consumed by `handle_socks5_connection`. -/
def handleSOCKS5 (dial : List Nat → Option TCPAddr)
    (tnl : Option GoErr × Option GoErr) (s : List Nat) :
    List Nat × Except HErr Unit :=
  match handleGreeting s with
  | .error e => ([], .error (.goErr e))
  | .ok (methods, s1) =>
    processRequest dial tnl (replyMethodSelectionBytes methods) s1

/- ### Tunnel (server/server.go tunnel)

The Go function starts `io.Copy(remote, client)` on a fresh goroutine,
runs `io.Copy(client, remote)` on its own goroutine, and returns as
soon as the latter finishes, reading whatever value the shared
`writeErr` variable holds at that moment.  The interleaving of the two
goroutines is modelled by a scheduler trace: each step runs one task to
completion of its copy.  `wOut`/`rOut` are the terminal outcomes the
two copy directions would produce (`none` = clean EOF). -/

/-- A schedulable task of the tunnel: the spawned goroutine copying
client to remote, or the caller's own copy of remote to client. -/
inductive TunTask
  | writerT
  | mainT
deriving DecidableEq

/-- Tunnel execution state: which copies have terminated, whether
`tunnel` has returned, the current value of the shared `writeErr`
variable, and the `(readErr, writeErr)` pair captured at return. -/
structure TunState where
  writerDone : Bool
  mainDone : Bool
  returned : Bool
  writeErrCell : Option GoErr
  result : Option (Option GoErr × Option GoErr)
deriving DecidableEq

/-- Initial tunnel state: nothing run, `writeErr` at its nil zero
value. -/
def tunInit : TunState :=
  { writerDone := false, mainDone := false, returned := false,
    writeErrCell := none, result := none }

/-- One scheduler step: the chosen task, when not yet finished, runs
its copy to completion.  The main task then immediately returns,
capturing `readErr` and the current `writeErr`. -/
def tunStep (wOut rOut : Option GoErr) (s : TunState) (t : TunTask) : TunState :=
  match t with
  | .writerT =>
    if s.writerDone then s
    else { s with writerDone := true, writeErrCell := wOut }
  | .mainT =>
    if s.mainDone then s
    else { s with mainDone := true, returned := true,
                  result := some (rOut, s.writeErrCell) }

/-- Run the tunnel under a scheduler trace. -/
def tunRun (wOut rOut : Option GoErr) (tr : List TunTask) : TunState :=
  tr.foldl (tunStep wOut rOut) tunInit

/-- The claim as stated: under every schedule, `tunnel` has returned
only once both copy directions have terminated, and both terminal
outcomes are reported to the caller. -/
def tunnelWaitsForBoth : Prop :=
  ∀ (wOut rOut : Option GoErr) (tr : List TunTask),
    (tunRun wOut rOut tr).returned = true →
    (tunRun wOut rOut tr).writerDone = true ∧
    (tunRun wOut rOut tr).mainDone = true ∧
    (tunRun wOut rOut tr).result = some (rOut, wOut)

/-- Invariant of the tunnel state machine: the shared `writeErr` cell
holds either the writer's outcome or its nil zero value, return
coincides with completion of the main copy, and a captured result pairs
the read outcome with one of those two cell values. -/
def tunInv (wOut rOut : Option GoErr) (s : TunState) : Prop :=
  (s.writeErrCell = wOut ∨ s.writeErrCell = none) ∧
  s.returned = s.mainDone ∧
  (s.returned = true →
    ∃ w, s.result = some (rOut, w) ∧ (w = wOut ∨ w = none))

/- ### Basic lemmas about the stream reads -/

/-- A successful read fills a buffer of exactly the requested size and
consumes up to that many stream bytes. -/
theorem goRead_ok {n : Nat} {s b : List Nat} {l : Nat} {r : List Nat}
    (h : goRead n s = .ok (b, l, r)) :
    b.length = n ∧ l = min n s.length ∧ r = s.drop n := by
  unfold goRead at h
  by_cases hn : n = 0
  · rw [if_pos hn] at h
    simp only [Except.ok.injEq, Prod.mk.injEq] at h
    obtain ⟨hb, hl, hr⟩ := h
    subst hn
    subst hb
    subst hl
    subst hr
    simp
  · rw [if_neg hn] at h
    cases s with
    | nil => simp at h
    | cons x t =>
      dsimp only at h
      simp only [Except.ok.injEq, Prod.mk.injEq] at h
      obtain ⟨hb, hl, hr⟩ := h
      subst hb
      subst hl
      subst hr
      refine ⟨?_, rfl, rfl⟩
      simp only [List.length_append, List.length_take, List.length_replicate,
        List.length_cons]
      omega

/-- When the stream holds at least the requested bytes (and the read is
either empty or the stream non-empty), the read returns them exactly. -/
theorem goRead_of_le {n : Nat} {s : List Nat} (h : n ≤ s.length)
    (hs : n = 0 ∨ s ≠ []) :
    goRead n s = .ok (s.take n, n, s.drop n) := by
  unfold goRead
  by_cases hn : n = 0
  · subst hn; simp
  · rw [if_neg hn]
    cases s with
    | nil =>
      rcases hs with h0 | h0
      · exact absurd h0 hn
      · exact absurd rfl h0
    | cons x t =>
      dsimp only
      rw [Nat.sub_eq_zero_of_le h, Nat.min_eq_left h]
      simp

/-- A successful IPv4 address read yields 4 address bytes and 2 port
bytes. -/
theorem readIPV4Addr_ok {s a p r : List Nat}
    (h : readIPV4Addr s = .ok (a, p, r)) : a.length = 4 ∧ p.length = 2 := by
  unfold readIPV4Addr at h
  cases h4 : goRead 4 s with
  | error e => rw [h4] at h; simp at h
  | ok v =>
    obtain ⟨b, l, s1⟩ := v
    rw [h4] at h
    dsimp only at h
    by_cases hl : l ≠ 4
    · rw [if_pos hl] at h; simp at h
    · rw [if_neg hl] at h
      cases h2 : goRead 2 s1 with
      | error e => rw [h2] at h; simp at h
      | ok w =>
        obtain ⟨pb, l2, s2⟩ := w
        rw [h2] at h
        dsimp only at h
        by_cases hl2 : l2 ≠ 2
        · rw [if_pos hl2] at h; simp at h
        · rw [if_neg hl2] at h
          simp only [Except.ok.injEq, Prod.mk.injEq] at h
          obtain ⟨hb, hp, _⟩ := h
          subst hb
          subst hp
          exact ⟨(goRead_ok h4).1, (goRead_ok h2).1⟩

/-- A successful IPv6 address read yields 16 address bytes and 2 port
bytes. -/
theorem readIPV6Addr_ok {s a p r : List Nat}
    (h : readIPV6Addr s = .ok (a, p, r)) : a.length = 16 ∧ p.length = 2 := by
  unfold readIPV6Addr at h
  cases h16 : goRead 16 s with
  | error e => rw [h16] at h; simp at h
  | ok v =>
    obtain ⟨b, l, s1⟩ := v
    rw [h16] at h
    dsimp only at h
    by_cases hl : l ≠ 16
    · rw [if_pos hl] at h; simp at h
    · rw [if_neg hl] at h
      cases h2 : goRead 2 s1 with
      | error e => rw [h2] at h; simp at h
      | ok w =>
        obtain ⟨pb, l2, s2⟩ := w
        rw [h2] at h
        dsimp only at h
        by_cases hl2 : l2 ≠ 2
        · rw [if_pos hl2] at h; simp at h
        · rw [if_neg hl2] at h
          simp only [Except.ok.injEq, Prod.mk.injEq] at h
          obtain ⟨hb, hp, _⟩ := h
          subst hb
          subst hp
          exact ⟨(goRead_ok h16).1, (goRead_ok h2).1⟩

/-- A successful domain-name read yields exactly as many name bytes as
the transmitted length byte — the head of the stream — and 2 port
bytes. -/
theorem readDomainNameAddr_ok {s a p r : List Nat}
    (h : readDomainNameAddr s = .ok (a, p, r)) :
    a.length = s.headD 0 ∧ p.length = 2 := by
  unfold readDomainNameAddr at h
  cases h1 : goRead 1 s with
  | error e => rw [h1] at h; simp at h
  | ok v =>
    obtain ⟨lb, l1, s1⟩ := v
    rw [h1] at h
    dsimp only at h
    by_cases hl1 : l1 ≠ 1
    · rw [if_pos hl1] at h; simp at h
    · rw [if_neg hl1] at h
      cases hn : goRead (lb.getD 0 0) s1 with
      | error e => rw [hn] at h; simp at h
      | ok w =>
        obtain ⟨nb, ln, s2⟩ := w
        rw [hn] at h
        dsimp only at h
        by_cases hln : ln ≠ lb.getD 0 0
        · rw [if_pos hln] at h; simp at h
        · rw [if_neg hln] at h
          cases h2 : goRead 2 s2 with
          | error e => rw [h2] at h; simp at h
          | ok u =>
            obtain ⟨pb, l2, s3⟩ := u
            rw [h2] at h
            dsimp only at h
            by_cases hl2 : l2 ≠ 2
            · rw [if_pos hl2] at h; simp at h
            · rw [if_neg hl2] at h
              simp only [Except.ok.injEq, Prod.mk.injEq] at h
              obtain ⟨ha, hp, _⟩ := h
              subst ha
              subst hp
              refine ⟨?_, (goRead_ok h2).1⟩
              -- the buffer of the name read has exactly the requested
              -- length, and the length byte is the head of the stream
              have hs_ne : s ≠ [] := by
                intro hnil
                subst hnil
                simp [goRead] at h1
              have hlb : lb = [s.headD 0] := by
                cases s with
                | nil => exact absurd rfl hs_ne
                | cons x t =>
                  have hx := goRead_of_le (n := 1) (s := x :: t)
                    (by simp) (Or.inr (by simp))
                  rw [hx] at h1
                  simp only [Except.ok.injEq, Prod.mk.injEq] at h1
                  obtain ⟨hb', _, _⟩ := h1
                  simp [← hb']
              rw [(goRead_ok hn).1, hlb]
              simp

/-- `slices.Contains` agrees with list membership. -/
theorem nat_contains_iff (l : List Nat) (a : Nat) : l.contains a = true ↔ a ∈ l := by
  induction l with
  | nil => simp
  | cons b t ih => simp [List.contains_cons] at ih ⊢

/-- The selection bytes as a membership test on the offered methods. -/
theorem replyMethodSelectionBytes_eq (methods : List Nat) :
    replyMethodSelectionBytes methods =
      (if NO_AUTHENTICATION_REQUIRED_method ∈ methods then
        [SOCKS5H_VERSION, NO_AUTHENTICATION_REQUIRED_method]
      else [SOCKS5H_VERSION, NO_ACCEPTABLE_METHODS_method]) := by
  unfold replyMethodSelectionBytes
  by_cases h : NO_AUTHENTICATION_REQUIRED_method ∈ methods
  · rw [if_pos ((nat_contains_iff _ _).mpr h), if_pos h]
    rfl
  · rw [if_neg (fun hc => h ((nat_contains_iff _ _).mp hc)), if_neg h]

/-- C5: for every offered method list (empty lists, duplicates and any
order included) the method-selection reply is `[0x05, 0x00]` exactly
when the offered set contains NO_AUTH `0x00`, and `[0x05, 0xFF]`
exactly when it does not. -/
theorem method_selection_iff_membership (methods : List Nat) :
    (replyMethodSelectionBytes methods =
        [SOCKS5H_VERSION, NO_AUTHENTICATION_REQUIRED_method] ↔
      NO_AUTHENTICATION_REQUIRED_method ∈ methods) ∧
    (replyMethodSelectionBytes methods =
        [SOCKS5H_VERSION, NO_ACCEPTABLE_METHODS_method] ↔
      NO_AUTHENTICATION_REQUIRED_method ∉ methods) := by
  rw [replyMethodSelectionBytes_eq]
  by_cases h : NO_AUTHENTICATION_REQUIRED_method ∈ methods
  · rw [if_pos h]
    exact ⟨iff_of_true rfl h, iff_of_false (by decide) (by simp [h])⟩
  · rw [if_neg h]
    exact ⟨iff_of_false (by decide) h, iff_of_true rfl h⟩

/-- Port-derived views are total once the port slice has 2 bytes. -/
theorem req_derived_total (req : Socks5_Req) (hp : req.DstPort.length = 2) :
    req.PortNum?.isSome = true ∧ req.FullAddr?.isSome = true := by
  have h1 : req.PortNum?.isSome = true := by
    simp [Socks5_Req.PortNum?, hp]
  refine ⟨h1, ?_⟩
  unfold Socks5_Req.FullAddr?
  cases hp' : req.PortNum? with
  | none => rw [hp'] at h1; simp at h1
  | some p => simp

/-- C10: every `Socks5_Req` the parser returns with a nil error has a
2-byte destination port and a destination address whose length matches
its address type (4 bytes for IPv4, 16 for IPv6, the transmitted length
byte for domain names); hence `PortNum` and `FullAddr` never panic on
parser output. -/
theorem parsed_request_lengths_invariant {s : List Nat} {req : Socks5_Req}
    {rest : List Nat} (h : readSockRequest s = .ok (req, rest)) :
    req.DstPort.length = 2 ∧
    (req.AType = IP_V4_addr → req.DstAddr.length = 4) ∧
    (req.AType = IP_V6_addr → req.DstAddr.length = 16) ∧
    (req.AType = DOMAINNAME_addr → req.DstAddr.length = (s.drop 4).headD 0) ∧
    req.PortNum?.isSome = true ∧ req.FullAddr?.isSome = true := by
  unfold readSockRequest at h
  cases h4 : goRead 4 s with
  | error e => rw [h4] at h; simp at h
  | ok v =>
    obtain ⟨header, hl, s1⟩ := v
    rw [h4] at h
    dsimp only at h
    by_cases hhl : hl ≠ 4
    · rw [if_pos hhl] at h; simp at h
    · rw [if_neg hhl] at h
      by_cases hvr : header.getD 0 0 ≠ SOCKS5H_VERSION ∨ header.getD 2 0 ≠ RSV
      · rw [if_pos hvr] at h; simp at h
      · rw [if_neg hvr] at h
        by_cases hcmd : header.getD 1 0 < CONNECT_cmd ∨
            UDP_ASSOCIATE_cmd < header.getD 1 0
        · rw [if_pos hcmd] at h; simp at h
        · rw [if_neg hcmd] at h
          have hs1 : s1 = s.drop 4 := (goRead_ok h4).2.2
          cases hd : addrDispatch (header.getD 3 0) s1 with
          | error e => rw [hd] at h; simp at h
          | ok t =>
            obtain ⟨addr, port, s2⟩ := t
            rw [hd] at h
            dsimp only at h
            simp only [Except.ok.injEq, Prod.mk.injEq] at h
            obtain ⟨hreq, -⟩ := h
            have hAT : req.AType = header.getD 3 0 := by rw [← hreq]
            have hDA : req.DstAddr = addr := by rw [← hreq]
            have hDP : req.DstPort = port := by rw [← hreq]
            unfold addrDispatch at hd
            by_cases h1 : header.getD 3 0 = IP_V4_addr
            · rw [if_pos h1] at hd
              obtain ⟨ha, hp⟩ := readIPV4Addr_ok hd
              have hplen : req.DstPort.length = 2 := by rw [hDP]; exact hp
              refine ⟨hplen, fun _ => by rw [hDA]; exact ha, ?_, ?_,
                req_derived_total req hplen⟩
              · intro h'
                rw [hAT, h1] at h'
                exact absurd h' (by decide)
              · intro h'
                rw [hAT, h1] at h'
                exact absurd h' (by decide)
            · rw [if_neg h1] at hd
              by_cases h3 : header.getD 3 0 = DOMAINNAME_addr
              · rw [if_pos h3] at hd
                obtain ⟨ha, hp⟩ := readDomainNameAddr_ok hd
                have hplen : req.DstPort.length = 2 := by rw [hDP]; exact hp
                refine ⟨hplen, ?_, ?_, fun _ => ?_, req_derived_total req hplen⟩
                · intro h'
                  rw [hAT, h3] at h'
                  exact absurd h' (by decide)
                · intro h'
                  rw [hAT, h3] at h'
                  exact absurd h' (by decide)
                · rw [hDA, ← hs1]
                  exact ha
              · rw [if_neg h3] at hd
                by_cases h6 : header.getD 3 0 = IP_V6_addr
                · rw [if_pos h6] at hd
                  obtain ⟨ha, hp⟩ := readIPV6Addr_ok hd
                  have hplen : req.DstPort.length = 2 := by rw [hDP]; exact hp
                  refine ⟨hplen, ?_, fun _ => by rw [hDA]; exact ha, ?_,
                    req_derived_total req hplen⟩
                  · intro h'
                    rw [hAT, h6] at h'
                    exact absurd h' (by decide)
                  · intro h'
                    rw [hAT, h6] at h'
                    exact absurd h' (by decide)
                · rw [if_neg h6] at hd
                  simp at hd

/-- C10 witness: the invariant instantiated at a concrete IPv4 CONNECT
request stream. -/
theorem parsed_request_lengths_invariant_witness :
    readSockRequest [5, 1, 0, 1, 9, 8, 7, 6, 0, 80] =
      .ok ({ Version := 5, Cmd := 1, AType := 1,
             DstAddr := [9, 8, 7, 6], DstPort := [0, 80] }, []) ∧
    ({ Version := 5, Cmd := 1, AType := 1, DstAddr := [9, 8, 7, 6],
       DstPort := [0, 80] } : Socks5_Req).DstPort.length = 2 ∧
    (({ Version := 5, Cmd := 1, AType := 1, DstAddr := [9, 8, 7, 6],
        DstPort := [0, 80] } : Socks5_Req).AType = IP_V4_addr →
      ({ Version := 5, Cmd := 1, AType := 1, DstAddr := [9, 8, 7, 6],
         DstPort := [0, 80] } : Socks5_Req).DstAddr.length = 4) ∧
    (({ Version := 5, Cmd := 1, AType := 1, DstAddr := [9, 8, 7, 6],
        DstPort := [0, 80] } : Socks5_Req).AType = IP_V6_addr →
      ({ Version := 5, Cmd := 1, AType := 1, DstAddr := [9, 8, 7, 6],
         DstPort := [0, 80] } : Socks5_Req).DstAddr.length = 16) ∧
    (({ Version := 5, Cmd := 1, AType := 1, DstAddr := [9, 8, 7, 6],
        DstPort := [0, 80] } : Socks5_Req).AType = DOMAINNAME_addr →
      ({ Version := 5, Cmd := 1, AType := 1, DstAddr := [9, 8, 7, 6],
         DstPort := [0, 80] } : Socks5_Req).DstAddr.length =
        (([5, 1, 0, 1, 9, 8, 7, 6, 0, 80] : List Nat).drop 4).headD 0) ∧
    ({ Version := 5, Cmd := 1, AType := 1, DstAddr := [9, 8, 7, 6],
       DstPort := [0, 80] } : Socks5_Req).PortNum?.isSome = true ∧
    ({ Version := 5, Cmd := 1, AType := 1, DstAddr := [9, 8, 7, 6],
       DstPort := [0, 80] } : Socks5_Req).FullAddr?.isSome = true :=
  ⟨rfl, parsed_request_lengths_invariant rfl⟩

/-- C9: a DOMAINNAME request whose length byte is 0 is accepted by the
codec without error and without a runtime fault, yields an empty domain
name, and the resolved host:port string has an empty host part (it is
just a colon followed by the decimal port). -/
theorem zero_length_domain_accepted (p1 p2 : Nat) (rest : List Nat) :
    readSockRequest (5 :: 1 :: 0 :: 3 :: 0 :: p1 :: p2 :: rest) =
      .ok ({ Version := 5, Cmd := 1, AType := 3,
             DstAddr := [], DstPort := [p1, p2] }, rest) ∧
    ({ Version := 5, Cmd := 1, AType := 3, DstAddr := [],
       DstPort := [p1, p2] } : Socks5_Req).AddrStr = [] ∧
    ({ Version := 5, Cmd := 1, AType := 3, DstAddr := [],
       DstPort := [p1, p2] } : Socks5_Req).FullAddr? =
      some (58 :: decDigits (p1 * 256 + p2)) := by
  refine ⟨?_, rfl, ?_⟩
  · have h4 : goRead 4 (5 :: 1 :: 0 :: 3 :: 0 :: p1 :: p2 :: rest) =
        .ok ([5, 1, 0, 3], 4, 0 :: p1 :: p2 :: rest) := by
      have := goRead_of_le (n := 4) (s := 5 :: 1 :: 0 :: 3 :: 0 :: p1 :: p2 :: rest)
        (by simp only [List.length_cons]; omega) (Or.inr (by simp))
      simpa using this
    have h1 : goRead 1 (0 :: p1 :: p2 :: rest) =
        .ok ([0], 1, p1 :: p2 :: rest) := by
      have := goRead_of_le (n := 1) (s := 0 :: p1 :: p2 :: rest)
        (by simp only [List.length_cons]; omega) (Or.inr (by simp))
      simpa using this
    have h0 : goRead (([0] : List Nat).getD 0 0) (p1 :: p2 :: rest) =
        .ok ([], 0, p1 :: p2 :: rest) := by
      simp [goRead]
    have h2 : goRead 2 (p1 :: p2 :: rest) = .ok ([p1, p2], 2, rest) := by
      have := goRead_of_le (n := 2) (s := p1 :: p2 :: rest)
        (by simp only [List.length_cons]; omega) (Or.inr (by simp))
      simpa using this
    unfold readSockRequest
    rw [h4]
    dsimp only
    rw [if_neg (by decide)]
    rw [if_neg (by simp [SOCKS5H_VERSION, RSV])]
    rw [if_neg (by simp [CONNECT_cmd, UDP_ASSOCIATE_cmd])]
    unfold addrDispatch
    rw [if_neg (by simp [IP_V4_addr]), if_pos (by simp [DOMAINNAME_addr])]
    unfold readDomainNameAddr
    rw [h1]
    dsimp only
    rw [if_neg (by decide)]
    rw [h0]
    dsimp only
    rw [if_neg (by decide)]
    rw [h2]
    dsimp only
    rw [if_neg (by decide)]
    rfl
  · simp [Socks5_Req.FullAddr?, Socks5_Req.PortNum?, Socks5_Req.AddrStr]

/-- C1: evaluation of the code at end-to-end scenario A (CONNECT to
127.0.0.1:80 with address type IPv4, after a NO_AUTH greeting).  The
request parses, but `connectDst` takes its default branch — no dial is
attempted for the IPv4 address type, even with a dial oracle that would
always succeed — and then dereferences the nil remote connection, so the
whole handler, having written only the method-selection reply `05 00`,
aborts with a runtime fault instead of replying SUCCEEDED and starting a
relay. -/
theorem connect_scenarioA_panics :
    readSockRequest [5, 1, 0, 1, 127, 0, 0, 1, 0, 80] =
      .ok ({ Version := 5, Cmd := 1, AType := 1,
             DstAddr := [127, 0, 0, 1], DstPort := [0, 80] }, []) ∧
    connectDst (fun _ => some { ip := [127, 0, 0, 1], port := 42 })
      { Version := 5, Cmd := 1, AType := 1,
        DstAddr := [127, 0, 0, 1], DstPort := [0, 80] } =
      .error CPanic.nilDeref ∧
    handleSOCKS5 (fun _ => some { ip := [127, 0, 0, 1], port := 42 })
      (none, none) [1, 0, 5, 1, 0, 1, 127, 0, 0, 1, 0, 80] =
      ([5, 0], .error (HErr.panicked CPanic.nilDeref)) :=
  ⟨rfl, rfl, rfl⟩

/-- C2: evaluation of the code at a CONNECT whose dial fails (domain
name "x", port 80, unreachable).  Before the fault, the switch leaves
the reply code at its zero value 0x00 — the SUCCEEDED byte, not a
failure code — and then `connectDst` dereferences the nil remote
connection: the handler crashes without writing any connection reply
(the output holds only the method-selection bytes), rather than
completing the failure path with a matching failure reply code. -/
theorem connect_dial_failure_panics :
    connectDstSwitch (fun _ => none)
      { Version := 5, Cmd := 1, AType := 3,
        DstAddr := [120], DstPort := [0, 80] } =
      .ok (none, SUCCEEDED_connReply, true) ∧
    connectDst (fun _ => none)
      { Version := 5, Cmd := 1, AType := 3,
        DstAddr := [120], DstPort := [0, 80] } =
      .error CPanic.nilDeref ∧
    handleSOCKS5 (fun _ => none) (none, none)
      [1, 0, 5, 1, 0, 3, 1, 120, 0, 80] =
      ([5, 0], .error (HErr.panicked CPanic.nilDeref)) :=
  ⟨rfl, rfl, rfl⟩

/-- C4: evaluation of the reply writer at a reachable reply value.  A
CONNECT to domain "x:80" whose dialed connection has local endpoint
127.0.0.1:1080 produces a reply tagged ATYP=1 (IPv4) whose
`AddrBytes` are the 9 ASCII bytes of the *text* "127.0.0.1" — not the
4 raw bytes the tag declares — so the written reply violates the
declared byte layout and decoding 4 bytes cannot recover the address;
the port, by contrast, is the 2 big-endian bytes [4, 56] of 1080. -/
theorem replyConnInfo_atyp_layout_bug :
    connectDst (fun _ => some { ip := [127, 0, 0, 1], port := 1080 })
      { Version := 5, Cmd := 1, AType := 3,
        DstAddr := [120], DstPort := [0, 80] } =
      .ok (some { ip := [127, 0, 0, 1], port := 1080 },
           { Reply := SUCCEEDED_connReply, AType := IP_V4_addr,
             BindAddr := [49, 50, 55, 46, 48, 46, 48, 46, 49],
             BindPort := 1080 }, false) ∧
    Socks5_Res.AddrBytes
      { Reply := SUCCEEDED_connReply, AType := IP_V4_addr,
        BindAddr := [49, 50, 55, 46, 48, 46, 48, 46, 49], BindPort := 1080 } =
      [49, 50, 55, 46, 48, 46, 48, 46, 49] ∧
    (Socks5_Res.AddrBytes
      { Reply := SUCCEEDED_connReply, AType := IP_V4_addr,
        BindAddr := [49, 50, 55, 46, 48, 46, 48, 46, 49],
        BindPort := 1080 }).length = 9 ∧
    Socks5_Res.PortBytes
      { Reply := SUCCEEDED_connReply, AType := IP_V4_addr,
        BindAddr := [49, 50, 55, 46, 48, 46, 48, 46, 49], BindPort := 1080 } =
      [4, 56] ∧
    replyConnInfoBytes
      { Reply := SUCCEEDED_connReply, AType := IP_V4_addr,
        BindAddr := [49, 50, 55, 46, 48, 46, 48, 46, 49], BindPort := 1080 } =
      [5, 0, 0, 1, 49, 50, 55, 46, 48, 46, 48, 46, 49, 4, 56] ∧
    ¬ (Socks5_Res.AddrBytes
      { Reply := SUCCEEDED_connReply, AType := IP_V4_addr,
        BindAddr := [49, 50, 55, 46, 48, 46, 48, 46, 49],
        BindPort := 1080 }).length = 4 :=
  ⟨rfl, rfl, rfl, rfl, rfl, by decide⟩

/-- C7: evaluation of the greeting reader at a stream announcing 2
method bytes but delivering only one (0x02) before end of stream.  The
Go code checks only the read error, never the read length, so it
silently proceeds with the zero-padded buffer [0x02, 0x00] instead of
failing with a TransportError — and the phantom 0x00 then makes the
selection logic pick NO_AUTH although the client never offered it. -/
theorem greeting_short_read_silently_proceeds :
    handleGreeting [2, 2] = .ok ([2, 0], []) ∧
    replyMethodSelectionBytes [2, 0] =
      [SOCKS5H_VERSION, NO_AUTHENTICATION_REQUIRED_method] :=
  ⟨rfl, rfl⟩

/- ### Tunnel lemmas -/

/-- The tunnel invariant holds initially. -/
theorem tunInv_init (wOut rOut : Option GoErr) : tunInv wOut rOut tunInit := by
  refine ⟨Or.inr rfl, rfl, ?_⟩
  intro h
  simp [tunInit] at h

/-- Each scheduler step preserves the tunnel invariant. -/
theorem tunInv_step (wOut rOut : Option GoErr) (s : TunState) (t : TunTask)
    (h : tunInv wOut rOut s) : tunInv wOut rOut (tunStep wOut rOut s t) := by
  obtain ⟨h1, h2, h3⟩ := h
  cases t with
  | writerT =>
    by_cases hw : s.writerDone
    · simpa [tunStep, hw] using ⟨h1, h2, h3⟩
    · rw [tunStep, if_neg hw]
      exact ⟨Or.inl rfl, h2, h3⟩
  | mainT =>
    by_cases hm : s.mainDone
    · simpa [tunStep, hm] using ⟨h1, h2, h3⟩
    · rw [tunStep, if_neg hm]
      exact ⟨h1, rfl, fun _ => ⟨s.writeErrCell, rfl, h1⟩⟩

/-- The invariant is preserved under any scheduler trace. -/
theorem tunInv_foldl (wOut rOut : Option GoErr) (tr : List TunTask)
    (s : TunState) (h : tunInv wOut rOut s) :
    tunInv wOut rOut (tr.foldl (tunStep wOut rOut) s) := by
  induction tr generalizing s with
  | nil => simpa using h
  | cons t ts ih =>
    rw [List.foldl_cons]
    exact ih _ (tunInv_step wOut rOut s t h)

/-- C3 counterexample: the claim that `tunnel` returns only once both
copy directions have terminated — with both terminal outcomes reported
to the caller — is false: under the schedule in which the caller's own
copy finishes first, `tunnel` has returned while the spawned
client-to-remote copy has not terminated, and its (non-nil) outcome is
not the one reported. -/
theorem tunnel_waits_for_both_refuted : ¬ tunnelWaitsForBoth := by
  intro h
  have hc := h (some GoErr.eof) none [TunTask.mainT] rfl
  exact absurd hc.1 (by decide)

/-- C3 (amended): `tunnel(client, remote)` returns exactly when the
remote-to-client copy running on the caller's own execution context
terminates; the read-direction outcome is always reported, while the
reported write-direction value is the spawned copy's outcome only if
that copy happened to finish before the return, and the nil zero value
otherwise. -/
theorem tunnel_returns_after_main (wOut rOut : Option GoErr)
    (tr : List TunTask) (h : (tunRun wOut rOut tr).returned = true) :
    (tunRun wOut rOut tr).mainDone = true ∧
    ∃ w, (tunRun wOut rOut tr).result = some (rOut, w) ∧
      (w = wOut ∨ w = none) := by
  obtain ⟨h1, h2, h3⟩ := tunInv_foldl wOut rOut tr tunInit (tunInv_init wOut rOut)
  unfold tunRun at h ⊢
  refine ⟨?_, h3 h⟩
  rw [← h2]
  exact h

/-- C3 witness: the amended theorem at the schedule that runs the
spawned copy first and then the caller's copy. -/
theorem tunnel_returns_after_main_witness :
    (tunRun (some GoErr.eof) none [TunTask.writerT, TunTask.mainT]).mainDone = true ∧
    ∃ w, (tunRun (some GoErr.eof) none
        [TunTask.writerT, TunTask.mainT]).result = some (none, w) ∧
      (w = some GoErr.eof ∨ w = none) :=
  tunnel_returns_after_main (some GoErr.eof) none
    [TunTask.writerT, TunTask.mainT] rfl

/-- C6: a connection-request header whose version byte is not 0x05,
whose reserved byte is not 0x00, or whose command byte lies outside
[1,3] always makes request parsing fail with a ProtocolError, and the
handler writes nothing to the client beyond the prior method-selection
reply. -/
theorem bad_request_header_protocol_error
    (dial : List Nat → Option TCPAddr) (tnl : Option GoErr × Option GoErr)
    (s m : List Nat) (v c r a : Nat) (tl : List Nat)
    (hg : handleGreeting s = .ok (m, v :: c :: r :: a :: tl))
    (hbad : v ≠ SOCKS5H_VERSION ∨ r ≠ RSV ∨
      c < CONNECT_cmd ∨ UDP_ASSOCIATE_cmd < c) :
    ∃ e : GoErr, e.isProtocol = true ∧
      readSockRequest (v :: c :: r :: a :: tl) = .error e ∧
      handleSOCKS5 dial tnl s =
        (replyMethodSelectionBytes m, .error (.goErr e)) := by
  have h4 : goRead 4 (v :: c :: r :: a :: tl) = .ok ([v, c, r, a], 4, tl) := by
    have := goRead_of_le (n := 4) (s := v :: c :: r :: a :: tl)
      (by simp only [List.length_cons]; omega) (Or.inr (by simp))
    simpa using this
  have hreq : ∃ e : GoErr, e.isProtocol = true ∧
      readSockRequest (v :: c :: r :: a :: tl) = .error e := by
    unfold readSockRequest
    rw [h4]
    dsimp only
    rw [if_neg (by decide)]
    by_cases hvr : ([v, c, r, a] : List Nat).getD 0 0 ≠ SOCKS5H_VERSION ∨
        ([v, c, r, a] : List Nat).getD 2 0 ≠ RSV
    · exact ⟨.badVersionOrRsv, rfl, by rw [if_pos hvr]⟩
    · have hcmd : ([v, c, r, a] : List Nat).getD 1 0 < CONNECT_cmd ∨
          UDP_ASSOCIATE_cmd < ([v, c, r, a] : List Nat).getD 1 0 := by
        push_neg at hvr
        rcases hbad with h' | h' | h' | h'
        · exact absurd hvr.1 h'
        · exact absurd hvr.2 h'
        · exact Or.inl h'
        · exact Or.inr h'
      exact ⟨.badCmd, rfl, by rw [if_neg hvr, if_pos hcmd]⟩
  obtain ⟨e, hp, he⟩ := hreq
  refine ⟨e, hp, he, ?_⟩
  unfold handleSOCKS5
  rw [hg]
  dsimp only
  unfold processRequest
  rw [he]

/-- C6 witness: a request header with version byte 4 after a valid
NO_AUTH greeting. -/
theorem bad_request_header_protocol_error_witness :
    ∃ e : GoErr, e.isProtocol = true ∧
      readSockRequest [4, 1, 0, 1] = .error e ∧
      handleSOCKS5 (fun _ => none) (none, none) [1, 0, 4, 1, 0, 1] =
        (replyMethodSelectionBytes [0], .error (.goErr e)) :=
  bad_request_header_protocol_error (fun _ => none) (none, none)
    [1, 0, 4, 1, 0, 1] [0] 4 1 0 1 [] rfl (Or.inl (by decide))

/-- C8: when the greeting offers no NO_AUTH method, the handler writes
the NO ACCEPTABLE METHODS selection and still proceeds to read the
connection request from the same stream — the continuation of the state
machine is exactly `processRequest` on the remaining bytes, not a
disconnect. -/
theorem no_acceptable_methods_still_reads_request
    (dial : List Nat → Option TCPAddr) (tnl : Option GoErr × Option GoErr)
    (s m s1 : List Nat) (hg : handleGreeting s = .ok (m, s1))
    (hno : NO_AUTHENTICATION_REQUIRED_method ∉ m) :
    replyMethodSelectionBytes m =
      [SOCKS5H_VERSION, NO_ACCEPTABLE_METHODS_method] ∧
    handleSOCKS5 dial tnl s =
      processRequest dial tnl
        [SOCKS5H_VERSION, NO_ACCEPTABLE_METHODS_method] s1 := by
  have hrep : replyMethodSelectionBytes m =
      [SOCKS5H_VERSION, NO_ACCEPTABLE_METHODS_method] := by
    rw [replyMethodSelectionBytes_eq, if_neg hno]
  refine ⟨hrep, ?_⟩
  unfold handleSOCKS5
  rw [hg]
  dsimp only
  rw [hrep]

/-- C8 witness: a greeting offering only USERNAME/PASSWORD, followed by
an IPv4 CONNECT request on the same stream. -/
theorem no_acceptable_methods_still_reads_request_witness :
    replyMethodSelectionBytes [2] =
      [SOCKS5H_VERSION, NO_ACCEPTABLE_METHODS_method] ∧
    handleSOCKS5 (fun _ => none) (none, none)
      [1, 2, 5, 1, 0, 1, 127, 0, 0, 1, 0, 80] =
      processRequest (fun _ => none) (none, none)
        [SOCKS5H_VERSION, NO_ACCEPTABLE_METHODS_method]
        [5, 1, 0, 1, 127, 0, 0, 1, 0, 80] :=
  no_acceptable_methods_still_reads_request (fun _ => none) (none, none)
    [1, 2, 5, 1, 0, 1, 127, 0, 0, 1, 0, 80] [2]
    [5, 1, 0, 1, 127, 0, 0, 1, 0, 80] rfl (by decide)
